import Mathlib

/-
  Verification development for the qppd/parcel-box repository.

  The repository sources under consideration are:
    src/esp32/ParcelBoxEsp/PINS_CONFIG.h        (protocol and timing constants)
    src/esp32/ParcelBoxEsp/FirebaseConfig.h     (cloud path accessor declarations)
    src/esp32/ParcelBoxEsp/WiFiManagerCustom.h  (.cpp)  (WiFi reconnection logic)

  The transport framer, command/response protocol, event channel, lock/door
  state machine and session orchestrator described by the specification are
  not present in the repository (only their configuration constants are), so
  those components are modelled from the specification text, as marked on
  each definition.  Constants are taken verbatim from PINS_CONFIG.h and
  WiFiManagerCustom.h.
-/

namespace ParcelBox

/- ===================== Protocol constants (PINS_CONFIG.h) ================ -/

-- PINS_CONFIG.h line 69: #define CMD_LOCK_OPEN "AT+LOCK"
def CMD_LOCK_OPEN : String := "AT+LOCK"
-- PINS_CONFIG.h line 70: #define CMD_LOCK_CLOSE "AT-LOCK"
def CMD_LOCK_CLOSE : String := "AT-LOCK"
-- PINS_CONFIG.h line 71: #define CMD_BUZZER "AT+BUZZ"
def CMD_BUZZER : String := "AT+BUZZ"
-- PINS_CONFIG.h line 72: #define CMD_STATUS "AT+STATUS"
def CMD_STATUS : String := "AT+STATUS"
-- PINS_CONFIG.h line 73: #define CMD_SENSOR_READ "AT+SENSOR"
def CMD_SENSOR_READ : String := "AT+SENSOR"

-- PINS_CONFIG.h line 76: #define RESPONSE_EVENT "EVENT:"
def RESPONSE_EVENT : String := "EVENT:"
-- PINS_CONFIG.h line 77: #define RESPONSE_STATUS "STATUS:"
def RESPONSE_STATUS : String := "STATUS:"
-- PINS_CONFIG.h line 78: #define RESPONSE_ERROR "ERROR:"
def RESPONSE_ERROR : String := "ERROR:"
-- PINS_CONFIG.h line 79: #define RESPONSE_OK "OK"
def RESPONSE_OK : String := "OK"

-- PINS_CONFIG.h line 62: #define ARDUINO_RESPONSE_TIMEOUT 5000
def ARDUINO_RESPONSE_TIMEOUT : Nat := 5000

/- ===================== Transport framer (frames and parsing) ============= -/

/-- Modelled from the spec: the repository contains no framer implementation,
only the prefix constants above; the Frame variants follow the data model of
the spec (type tag inferred from a fixed tag at the start of the line:
AT+ or AT- for commands, EVENT:, STATUS:, ERROR:, the bare literal OK, and a
Malformed variant for everything else). Payloads are kept as character
lists. -/
inductive Frame where
  | Command (raw : List Char)
  | Event (payload : List Char)
  | Status (payload : List Char)
  | Error (payload : List Char)
  | Ok
  | Malformed
deriving DecidableEq, Repr

/-- The two command tags of the wire protocol. -/
def AT_SET_TAG : List Char := ("AT+").data

def AT_CLEAR_TAG : List Char := ("AT-").data

/-- Whitespace characters trimmed from the end of a received line. -/
def isWsChar (c : Char) : Bool := c = ' ' || c = '\t' || c = '\r' || c = '\n'

/-- Modelled from the spec: trailing whitespace of the raw payload is
trimmed before the tag dispatch. -/
def trimRight (l : List Char) : List Char :=
  (List.dropWhile isWsChar l.reverse).reverse

/-- Boolean test that a line starts with the given tag. -/
def startsWithL (p l : List Char) : Bool := decide (List.take p.length l = p)

/-- Modelled from the spec: the repository has no parser, only the prefix
constants; parseLine dispatches on the fixed tags after trimming trailing
whitespace; a line matching no tag (the empty line included) yields the
Malformed variant. -/
def parseLine (l : List Char) : Frame :=
  let t := trimRight l
  if startsWithL AT_SET_TAG t || startsWithL AT_CLEAR_TAG t then Frame.Command t
  else if startsWithL RESPONSE_EVENT.data t then
    Frame.Event (List.drop RESPONSE_EVENT.data.length t)
  else if startsWithL RESPONSE_STATUS.data t then
    Frame.Status (List.drop RESPONSE_STATUS.data.length t)
  else if startsWithL RESPONSE_ERROR.data t then
    Frame.Error (List.drop RESPONSE_ERROR.data.length t)
  else if t = RESPONSE_OK.data then Frame.Ok
  else Frame.Malformed

/-- Modelled from the spec: the wire form of a parsed frame, used to state
the round-trip property of framing plus parsing. -/
def serializeLine : Frame → List Char
  | Frame.Command raw => raw
  | Frame.Event p => RESPONSE_EVENT.data ++ p
  | Frame.Status p => RESPONSE_STATUS.data ++ p
  | Frame.Error p => RESPONSE_ERROR.data ++ p
  | Frame.Ok => RESPONSE_OK.data
  | Frame.Malformed => []

/-- A line whose trimmed form matches one of the known tags. -/
def knownLine (t : List Char) : Bool :=
  startsWithL AT_SET_TAG t || startsWithL AT_CLEAR_TAG t ||
  startsWithL RESPONSE_EVENT.data t || startsWithL RESPONSE_STATUS.data t ||
  startsWithL RESPONSE_ERROR.data t || decide (t = RESPONSE_OK.data)

/- ===================== take and drop helper lemmas ======================= -/

lemma take_len_append (p r : List Char) : List.take p.length (p ++ r) = p := by
  induction p with
  | nil => rfl
  | cons a t ih => simp [List.take, ih]

lemma take_append_le (n : Nat) (p r : List Char) (h : n ≤ p.length) :
    List.take n (p ++ r) = List.take n p := by
  induction p generalizing n with
  | nil =>
    have hn : n = 0 := Nat.le_zero.mp h
    simp [hn]
  | cons a t ih =>
    cases n with
    | zero => rfl
    | succ m =>
      simp only [List.cons_append, List.take_succ_cons]
      rw [ih m (Nat.le_of_succ_le_succ h)]

lemma drop_len_append (p r : List Char) : List.drop p.length (p ++ r) = r := by
  induction p with
  | nil => rfl
  | cons a t ih => simp [List.drop, ih]

lemma startsWithL_self_append (p r : List Char) : startsWithL p (p ++ r) = true := by
  simp [startsWithL, take_len_append]

lemma startsWithL_append_le (p q r : List Char) (h : p.length ≤ q.length) :
    startsWithL p (q ++ r) = startsWithL p q := by
  simp [startsWithL, take_append_le p.length q r h]

lemma startsWithL_head_ne (a b : Char) (p l : List Char) (h : ¬ a = b) :
    startsWithL (a :: p) (b :: l) = false := by
  simp [startsWithL, List.take_succ_cons, List.cons.injEq]
  intro hba
  exact absurd hba.symm h

/- ===================== framer round-trip lemmas ========================== -/

lemma parse_event_line (p : List Char)
    (h : trimRight (RESPONSE_EVENT.data ++ p) = RESPONSE_EVENT.data ++ p) :
    parseLine (RESPONSE_EVENT.data ++ p) = Frame.Event p := by
  have h1 : startsWithL AT_SET_TAG (RESPONSE_EVENT.data ++ p) = false := by
    rw [startsWithL_append_le _ _ _ (by decide)]; decide
  have h2 : startsWithL AT_CLEAR_TAG (RESPONSE_EVENT.data ++ p) = false := by
    rw [startsWithL_append_le _ _ _ (by decide)]; decide
  have h3 : startsWithL RESPONSE_EVENT.data (RESPONSE_EVENT.data ++ p) = true :=
    startsWithL_self_append _ _
  simp [parseLine, h, h1, h2, h3, drop_len_append]

lemma parse_status_line (p : List Char)
    (h : trimRight (RESPONSE_STATUS.data ++ p) = RESPONSE_STATUS.data ++ p) :
    parseLine (RESPONSE_STATUS.data ++ p) = Frame.Status p := by
  have h1 : startsWithL AT_SET_TAG (RESPONSE_STATUS.data ++ p) = false := by
    rw [startsWithL_append_le _ _ _ (by decide)]; decide
  have h2 : startsWithL AT_CLEAR_TAG (RESPONSE_STATUS.data ++ p) = false := by
    rw [startsWithL_append_le _ _ _ (by decide)]; decide
  have h3 : startsWithL RESPONSE_EVENT.data (RESPONSE_STATUS.data ++ p) = false := by
    rw [startsWithL_append_le _ _ _ (by decide)]; decide
  have h4 : startsWithL RESPONSE_STATUS.data (RESPONSE_STATUS.data ++ p) = true :=
    startsWithL_self_append _ _
  simp [parseLine, h, h1, h2, h3, h4, drop_len_append]

lemma parse_error_line (p : List Char)
    (h : trimRight (RESPONSE_ERROR.data ++ p) = RESPONSE_ERROR.data ++ p) :
    parseLine (RESPONSE_ERROR.data ++ p) = Frame.Error p := by
  have h1 : startsWithL AT_SET_TAG (RESPONSE_ERROR.data ++ p) = false := by
    rw [startsWithL_append_le _ _ _ (by decide)]; decide
  have h2 : startsWithL AT_CLEAR_TAG (RESPONSE_ERROR.data ++ p) = false := by
    rw [startsWithL_append_le _ _ _ (by decide)]; decide
  have h3 : startsWithL RESPONSE_EVENT.data (RESPONSE_ERROR.data ++ p) = false := by
    rw [startsWithL_append_le _ _ _ (by decide)]; decide
  have h4 : startsWithL RESPONSE_STATUS.data (RESPONSE_ERROR.data ++ p) = false := by
    have e1 : RESPONSE_STATUS.data = 'S' :: ("TATUS:").data := by decide
    have e2 : RESPONSE_ERROR.data = 'E' :: ("RROR:").data := by decide
    rw [e1, e2, List.cons_append]
    exact startsWithL_head_ne _ _ _ _ (by decide)
  have h5 : startsWithL RESPONSE_ERROR.data (RESPONSE_ERROR.data ++ p) = true :=
    startsWithL_self_append _ _
  simp [parseLine, h, h1, h2, h3, h4, h5, drop_len_append]

lemma parse_command_line (raw : List Char)
    (h : trimRight raw = raw)
    (hc : (startsWithL AT_SET_TAG raw || startsWithL AT_CLEAR_TAG raw) = true) :
    parseLine raw = Frame.Command raw := by
  simp [parseLine, h, hc]

lemma parse_unknown_line (l : List Char) (h : knownLine (trimRight l) = false) :
    parseLine l = Frame.Malformed := by
  simp only [knownLine, Bool.or_eq_false_iff, decide_eq_false_iff_not] at h
  obtain ⟨⟨⟨⟨⟨h1, h2⟩, h3⟩, h4⟩, h5⟩, h6⟩ := h
  simp [parseLine, h1, h2, h3, h4, h5, h6]

/- ===================== Commands and wire serialization =================== -/

/-- Modelled from the spec: the data model's Command type — LockOpen,
LockClose, Buzz, StatusQuery, SensorRead, each optionally suffixed with a
target identifier (StatusQuery takes none in the data model). -/
inductive Command where
  | LockOpen (lockId : Option Nat)
  | LockClose (lockId : Option Nat)
  | Buzz (durationClass : Option Nat)
  | StatusQuery
  | SensorRead (lockId : Option Nat)
deriving DecidableEq, Repr

/-- Modelled from the spec: the optional target-identifier suffix of a
serialized command. -/
def wireSuffix : Option Nat → String
  | none => ""
  | some n => " " ++ toString n

/-- Modelled from the spec: serialization of a Command to its wire form,
using the command constants of PINS_CONFIG.h. -/
def wireForm : Command → String
  | Command.LockOpen a => CMD_LOCK_OPEN ++ wireSuffix a
  | Command.LockClose a => CMD_LOCK_CLOSE ++ wireSuffix a
  | Command.Buzz a => CMD_BUZZER ++ wireSuffix a
  | Command.StatusQuery => CMD_STATUS
  | Command.SensorRead a => CMD_SENSOR_READ ++ wireSuffix a

/- ===================== Command/Response protocol ========================= -/

/-- Result of one execute call: the terminal response (Ok or Error), a
NoResponse timeout, or Busy contention. -/
inductive ExecResult where
  | Ok
  | Error (code : List Char)
  | NoResponse
  | Busy
deriving DecidableEq, Repr

/-- A frame together with its arrival time on the wire (milliseconds). -/
structure TimedFrame where
  arrival : Nat
  frame : Frame
deriving DecidableEq, Repr

/-- State of the Command/Response Protocol: whether a command's response is
currently pending (the internal exclusive lock of the spec). -/
structure ProtoState where
  pending : Bool
deriving DecidableEq, Repr

/-- A frame that counts as a terminal Response (OK or ERROR:). -/
def isResponseFrame : Frame → Bool
  | Frame.Ok => true
  | Frame.Error _ => true
  | _ => false

/-- Modelled from the spec: poll incoming frames until a Response frame is
seen or the deadline elapses; Event and Status frames encountered on the way
are forwarded to the Event Channel, other non-response frames are
discarded. Returns the response found (if any) and the forwarded frames. -/
def pollResponse (deadline : Nat) : List TimedFrame → Option ExecResult × List Frame
  | [] => (none, [])
  | tf :: rest =>
    if deadline < tf.arrival then (none, [])
    else
      match tf.frame with
      | Frame.Ok => (some ExecResult.Ok, [])
      | Frame.Error c => (some (ExecResult.Error c), [])
      | Frame.Event p =>
        ((pollResponse deadline rest).1, Frame.Event p :: (pollResponse deadline rest).2)
      | Frame.Status p =>
        ((pollResponse deadline rest).1, Frame.Status p :: (pollResponse deadline rest).2)
      | Frame.Command _ => pollResponse deadline rest
      | Frame.Malformed => pollResponse deadline rest

/-- Outcome of one execute call: its result, the lines sent on the
transport, the frames forwarded to the Event Channel, and the protocol
state afterwards. -/
structure ExecOutcome where
  result : ExecResult
  sent : List String
  forwarded : List Frame
  final : ProtoState
deriving DecidableEq, Repr

/-- Modelled from the spec: execute(Command, timeout). If a command is
already pending, fails with Busy sending nothing; otherwise sends the wire
form of the command and awaits a terminal Response until now plus
ARDUINO_RESPONSE_TIMEOUT, returning NoResponse when none arrives in that
window. -/
def execute (st : ProtoState) (c : Command) (now : Nat)
    (incoming : List TimedFrame) : ExecOutcome :=
  if st.pending then
    { result := ExecResult.Busy, sent := [], forwarded := [], final := st }
  else
    let pr := pollResponse (now + ARDUINO_RESPONSE_TIMEOUT) incoming
    { result :=
        match pr.1 with
        | some r => r
        | none => ExecResult.NoResponse,
      sent := [wireForm c],
      forwarded := pr.2,
      final := { pending := false } }

lemma pollResponse_none_of_late (deadline : Nat) (frames : List TimedFrame)
    (h : ∀ tf ∈ frames, isResponseFrame tf.frame = true → deadline < tf.arrival) :
    (pollResponse deadline frames).1 = none := by
  induction frames with
  | nil => rfl
  | cons tf rest ih =>
    have hrest : ∀ x ∈ rest, isResponseFrame x.frame = true → deadline < x.arrival :=
      fun x hx => h x (List.mem_cons_of_mem _ hx)
    by_cases hd : deadline < tf.arrival
    · simp [pollResponse, hd]
    · cases hf : tf.frame with
      | Ok =>
        exact absurd (h tf (List.mem_cons_self _ _) (by simp [hf, isResponseFrame])) hd
      | Error c =>
        exact absurd (h tf (List.mem_cons_self _ _) (by simp [hf, isResponseFrame])) hd
      | Event p => simp [pollResponse, hd, hf, ih hrest]
      | Status p => simp [pollResponse, hd, hf, ih hrest]
      | Command r => simp [pollResponse, hd, hf, ih hrest]
      | Malformed => simp [pollResponse, hd, hf, ih hrest]

/- ===================== Lock/Door state machine =========================== -/

/-- Modelled from the spec: the four per-lock states of the Lock/Door State
Machine. -/
inductive LockPhase where
  | Locked
  | Unlocked
  | Transitioning
  | Fault
deriving DecidableEq, Repr, Fintype

/-- Modelled from the spec: per-lock state — the state tag, the commanded
state (true when the last commanded action was a close), and the last-sensed
door state (true when the door was last sensed closed). -/
structure LockState where
  phase : LockPhase
  commandedClosed : Bool
  sensedClosed : Bool
deriving DecidableEq, Repr, Fintype

/-- Modelled from the spec: the inputs of the Lock/Door State Machine — the
relevant successful Responses (LockOpen Ok, LockClose Ok, explicit reset Ok),
the derived condition of a command failing twice consecutively, the Events
DoorClosed and Unauthorized, the sensor-confirms-open timeout, and a sensor
reading disagreeing with the commanded state beyond the grace period. -/
inductive LockInput where
  | lockOpenOk
  | lockCloseOk
  | resetOk
  | commandFailedTwice
  | doorClosed
  | unauthorized
  | sensorOpenTimeout
  | sensorMismatch
deriving DecidableEq, Repr, Fintype

/-- Modelled from the spec: one transition of the Lock/Door State Machine.
Fault is sticky (only a successful explicit reset leaves it, to Locked);
Unauthorized, a twice-failed command, or a sensor mismatch send any
non-Fault state to Fault; LockOpen success leaves Locked for Transitioning;
a DoorClosed event locks a Transitioning lock only when the commanded state
agrees (commanded closed); the sensor confirming open moves a Transitioning
lock with commanded state open to Unlocked; LockClose success moves Unlocked
to Transitioning with commanded state closed; everything else is a no-op. -/
def lockStep (s : LockState) (i : LockInput) : LockState :=
  match s.phase, i with
  | LockPhase.Fault, LockInput.resetOk =>
    { s with phase := LockPhase.Locked, commandedClosed := true }
  | LockPhase.Fault, _ => s
  | _, LockInput.unauthorized => { s with phase := LockPhase.Fault }
  | _, LockInput.commandFailedTwice => { s with phase := LockPhase.Fault }
  | _, LockInput.sensorMismatch => { s with phase := LockPhase.Fault }
  | LockPhase.Locked, LockInput.lockOpenOk =>
    { s with phase := LockPhase.Transitioning, commandedClosed := false }
  | LockPhase.Locked, LockInput.doorClosed => s
  | LockPhase.Transitioning, LockInput.doorClosed =>
    if s.commandedClosed then
      { phase := LockPhase.Locked, commandedClosed := true, sensedClosed := true }
    else { s with sensedClosed := true }
  | LockPhase.Transitioning, LockInput.sensorOpenTimeout =>
    if s.commandedClosed then s
    else { s with phase := LockPhase.Unlocked, sensedClosed := false }
  | LockPhase.Unlocked, LockInput.lockCloseOk =>
    { s with phase := LockPhase.Transitioning, commandedClosed := true }
  | _, _ => s

/-- Runs the Lock/Door State Machine over a sequence of inputs. -/
def lockRun (s : LockState) : List LockInput → LockState
  | [] => s
  | i :: rest => lockRun (lockStep s i) rest

/-- The initial unsecured state of a lock: Unlocked, commanded open, door
sensed open. -/
def unlockedInit : LockState :=
  { phase := LockPhase.Unlocked, commandedClosed := false, sensedClosed := false }

/- ===================== Lock machine invariant lemmas ===================== -/

lemma lockStep_into_locked_classify :
    ∀ (s : LockState) (i : LockInput),
      s.phase ≠ LockPhase.Locked → (lockStep s i).phase = LockPhase.Locked →
      i = LockInput.doorClosed ∨ i = LockInput.resetOk := by decide

lemma lockStep_into_locked_needs_reset :
    ∀ (s : LockState) (i : LockInput),
      s.phase ≠ LockPhase.Locked →
      ¬(s.phase = LockPhase.Transitioning ∧ s.commandedClosed = true) →
      (lockStep s i).phase = LockPhase.Locked →
      i = LockInput.resetOk := by decide

lemma lockStep_into_armed_classify :
    ∀ (s : LockState) (i : LockInput),
      s.phase ≠ LockPhase.Locked →
      ¬(s.phase = LockPhase.Transitioning ∧ s.commandedClosed = true) →
      ((lockStep s i).phase = LockPhase.Transitioning ∧
        (lockStep s i).commandedClosed = true) →
      i = LockInput.lockCloseOk := by decide

lemma lockStep_locked_doorClosed :
    ∀ s : LockState, s.phase = LockPhase.Locked →
      lockStep s LockInput.doorClosed = s := by decide

lemma lockRun_locked_needs_door_or_reset (inputs : List LockInput) :
    ∀ s : LockState, s.phase ≠ LockPhase.Locked →
      (lockRun s inputs).phase = LockPhase.Locked →
      LockInput.doorClosed ∈ inputs ∨ LockInput.resetOk ∈ inputs := by
  induction inputs with
  | nil => intro s hs h; exact absurd h hs
  | cons i rest ih =>
    intro s hs h
    by_cases h2 : (lockStep s i).phase = LockPhase.Locked
    · rcases lockStep_into_locked_classify s i hs h2 with hi | hi
      · exact Or.inl (by rw [hi]; exact List.mem_cons_self _ _)
      · exact Or.inr (by rw [hi]; exact List.mem_cons_self _ _)
    · rcases ih (lockStep s i) h2 h with hd | hr
      · exact Or.inl (List.mem_cons_of_mem _ hd)
      · exact Or.inr (List.mem_cons_of_mem _ hr)

lemma lockRun_locked_provenance (inputs : List LockInput) :
    ∀ s : LockState,
      s.phase ≠ LockPhase.Locked →
      ¬(s.phase = LockPhase.Transitioning ∧ s.commandedClosed = true) →
      (lockRun s inputs).phase = LockPhase.Locked →
      (LockInput.lockCloseOk ∈ inputs ∧ LockInput.doorClosed ∈ inputs) ∨
        LockInput.resetOk ∈ inputs := by
  induction inputs with
  | nil => intro s hs _ h; exact absurd h hs
  | cons i rest ih =>
    intro s hs ht h
    by_cases hL : (lockStep s i).phase = LockPhase.Locked
    · have hi : i = LockInput.resetOk := lockStep_into_locked_needs_reset s i hs ht hL
      exact Or.inr (by rw [hi]; exact List.mem_cons_self _ _)
    · by_cases hT : (lockStep s i).phase = LockPhase.Transitioning ∧
          (lockStep s i).commandedClosed = true
      · have hi : i = LockInput.lockCloseOk := lockStep_into_armed_classify s i hs ht hT
        rcases lockRun_locked_needs_door_or_reset rest (lockStep s i) hL h with hd | hr
        · exact Or.inl ⟨by rw [hi]; exact List.mem_cons_self _ _,
            List.mem_cons_of_mem _ hd⟩
        · exact Or.inr (List.mem_cons_of_mem _ hr)
      · rcases ih (lockStep s i) hL hT h with ⟨hc, hd⟩ | hr
        · exact Or.inl ⟨List.mem_cons_of_mem _ hc, List.mem_cons_of_mem _ hd⟩
        · exact Or.inr (List.mem_cons_of_mem _ hr)

/- ===================== Session orchestrator ============================== -/

/-- Modelled from the spec: the retry budget of the Session Orchestrator — a
failed execute is retried up to this fixed count (scenario 3: three retries
after the first attempt). -/
def MAX_COMMAND_RETRIES : Nat := 3

/-- An execute outcome on which the Session Orchestrator retries (Busy or
NoResponse). -/
def isFailedExec : ExecResult → Bool
  | ExecResult.Busy => true
  | ExecResult.NoResponse => true
  | _ => false

/-- Modelled from the spec: the retry loop — attempt i yields outcome
(attempt i); tries are made while fuel remains, stopping at the first
outcome that is not a failure; none when every try failed. -/
def firstTerminal (attempt : Nat → ExecResult) : Nat → Nat → Option ExecResult
  | _, 0 => none
  | i, fuel + 1 =>
    if isFailedExec (attempt i) then firstTerminal attempt (i + 1) fuel
    else some (attempt i)

/-- Modelled from the spec: one command issue with retries — the initial
attempt plus up to MAX_COMMAND_RETRIES retries. -/
def executeWithRetry (attempt : Nat → ExecResult) : Option ExecResult :=
  firstTerminal attempt 0 (1 + MAX_COMMAND_RETRIES)

/-- Modelled from the spec: the abort reasons of a Session. -/
inductive AbortReason where
  | ControllerUnreachable
  | UnauthorizedAbort
  | TimeoutAbort
deriving DecidableEq, Repr

/-- Modelled from the spec: the Session lifecycle states. -/
inductive SessionState where
  | Idle
  | AwaitingUnlock
  | AwaitingDoorEvent
  | AwaitingRelock
  | Completed
  | Aborted (reason : AbortReason)
deriving DecidableEq, Repr

/-- Modelled from the spec: issuing one command from the Session
Orchestrator — when the retry budget is exhausted with every attempt a
failure, the Session aborts with ControllerUnreachable; otherwise the
Session continues into the state determined by the terminal result. -/
def sessionAfterExec (next : ExecResult → SessionState)
    (attempt : Nat → ExecResult) : SessionState :=
  match executeWithRetry attempt with
  | none => SessionState.Aborted AbortReason.ControllerUnreachable
  | some r => next r

lemma firstTerminal_none_of_fail (attempt : Nat → ExecResult) :
    ∀ (fuel i : Nat), (∀ j, j < fuel → isFailedExec (attempt (i + j)) = true) →
      firstTerminal attempt i fuel = none := by
  intro fuel
  induction fuel with
  | zero => intro i _; rfl
  | succ n ih =>
    intro i h
    have h0 : isFailedExec (attempt i) = true := by
      have := h 0 (Nat.succ_pos n)
      simpa using this
    have hrest : ∀ j, j < n → isFailedExec (attempt (i + 1 + j)) = true := by
      intro j hj
      have := h (j + 1) (Nat.succ_lt_succ hj)
      simpa [Nat.add_assoc, Nat.add_comm 1 j] using this
    simp [firstTerminal, h0, ih (i + 1) hrest]

/- ===================== Cloud mirror paths (FirebaseConfig) =============== -/

namespace ParcelBoxFirebaseConfig

/-- Modelled from the spec: FirebaseConfig.cpp, which defines the path
accessors of ParcelBoxFirebaseConfig, is not committed to the repository
(the header notes it must not be committed); the header only declares
getParcelsDatabasePath, annotated with the intended path. Value follows the
fixed path layout of the spec. -/
def getParcelsDatabasePath : String := "/parcels"

/-- Modelled from the spec: definition absent from the repository (header
declaration only); value follows the fixed path layout of the spec. -/
def getDeviceStatusPath : String := "/device_status"

/-- Modelled from the spec: definition absent from the repository (header
declaration only); value follows the fixed path layout of the spec. -/
def getLocksStatusPath : String := "/locks_status"

/-- Modelled from the spec: definition absent from the repository (header
declaration only); value follows the fixed path layout of the spec. -/
def getHistoryPath : String := "/history"

/-- Modelled from the spec: definition absent from the repository (header
declaration only); value follows the fixed path layout of the spec. -/
def getConfigPath : String := "/config"

end ParcelBoxFirebaseConfig

/- ===================== WiFi manager (WiFiManagerCustom.cpp) ============== -/

-- WiFiManagerCustom.h line 53: static const unsigned long RECONNECT_INTERVAL = 5000
def RECONNECT_INTERVAL : Nat := 5000

/-- The modulus of the 32-bit unsigned long arithmetic of millis() on the
ESP32. -/
def UNSIGNED_LONG_MOD : Nat := 2 ^ 32

/-- The object state of WiFiManagerCustom that reconnect touches: the
connectivity reading (WiFi.status() == WL_CONNECTED) and the
lastReconnectAttempt timestamp. -/
structure WiFiManagerCustom where
  connected : Bool
  lastReconnectAttempt : Nat
deriving DecidableEq, Repr

/-- The WiFi library calls reconnect can issue: WiFi.disconnect(false)
(keeping the radio powered) and WiFi.reconnect(). -/
inductive WiFiCall where
  | disconnectKeepRadio
  | reconnectWithSaved
deriving DecidableEq, Repr

/-- The unsigned 32-bit subtraction currentMillis - lastReconnectAttempt
computed by WiFiManagerCustom::reconnect. -/
def elapsedSince (lastAttempt currentMillis : Nat) : Nat :=
  (currentMillis % UNSIGNED_LONG_MOD + UNSIGNED_LONG_MOD
    - lastAttempt % UNSIGNED_LONG_MOD) % UNSIGNED_LONG_MOD

namespace WiFiManagerCustom

/-- Embedding of WiFiManagerCustom::reconnect (WiFiManagerCustom.cpp lines
58-72): when disconnected and at least RECONNECT_INTERVAL has elapsed since
lastReconnectAttempt (unsigned 32-bit arithmetic), record the attempt time
and issue WiFi.disconnect(false) followed by WiFi.reconnect(); in every
other case leave the state unchanged and issue no call. -/
def reconnect (w : WiFiManagerCustom) (currentMillis : Nat) :
    WiFiManagerCustom × List WiFiCall :=
  if w.connected = false then
    if RECONNECT_INTERVAL ≤ elapsedSince w.lastReconnectAttempt currentMillis then
      ({ w with lastReconnectAttempt := currentMillis % UNSIGNED_LONG_MOD },
        [WiFiCall.disconnectKeepRadio, WiFiCall.reconnectWithSaved])
    else (w, [])
  else (w, [])

end WiFiManagerCustom

lemma reconnect_skip_of_recent (w : WiFiManagerCustom) (cur : Nat)
    (he : elapsedSince w.lastReconnectAttempt cur < RECONNECT_INTERVAL) :
    WiFiManagerCustom.reconnect w cur = (w, []) := by
  cases hb : w.connected
  · simp [WiFiManagerCustom.reconnect, hb, Nat.not_le.mpr he]
  · simp [WiFiManagerCustom.reconnect, hb]

lemma firstTerminal_succ (attempt : Nat → ExecResult) (i fuel : Nat) :
    firstTerminal attempt i (fuel + 1) =
      if isFailedExec (attempt i) then firstTerminal attempt (i + 1) fuel
      else some (attempt i) := rfl

/- ========================================================================= -/
/- =============================== CLAIMS ================================== -/
/- ========================================================================= -/

/-- Claim C1, counterexample to the claim as stated: from the Unlocked
initial state, the sequence consisting of an Unauthorized event followed by
a successful explicit reset command reaches Locked although it contains
neither a successful LockClose response nor a DoorClosed event — the
Fault-recovery transition of the spec reaches Locked without sensor
corroboration. -/
theorem C1_locked_without_sensor_counterexample :
    (lockRun unlockedInit [LockInput.unauthorized, LockInput.resetOk]).phase =
      LockPhase.Locked ∧
    LockInput.lockCloseOk ∉ [LockInput.unauthorized, LockInput.resetOk] ∧
    LockInput.doorClosed ∉ [LockInput.unauthorized, LockInput.resetOk] := by
  decide

/-- Claim C1, amended: for every sequence of Responses and Events processed
from the Unlocked initial state, the LockState reaches Locked only if the
sequence contains both a successful LockClose response and a corroborating
DoorClosed event, or it contains a successful explicit reset command (the
Fault-recovery transition, which reaches Locked without sensor
corroboration). -/
theorem C1_locked_requires_close_and_door (inputs : List LockInput)
    (h : (lockRun unlockedInit inputs).phase = LockPhase.Locked) :
    (LockInput.lockCloseOk ∈ inputs ∧ LockInput.doorClosed ∈ inputs) ∨
      LockInput.resetOk ∈ inputs :=
  lockRun_locked_provenance inputs unlockedInit (by decide) (by decide) h

/-- Witness for C1: the sequence LockClose-Ok then DoorClosed reaches
Locked, and the theorem instantiated there yields the disjunction. -/
theorem C1_locked_requires_close_and_door_witness :
    (lockRun unlockedInit [LockInput.lockCloseOk, LockInput.doorClosed]).phase =
      LockPhase.Locked ∧
    ((LockInput.lockCloseOk ∈ [LockInput.lockCloseOk, LockInput.doorClosed] ∧
      LockInput.doorClosed ∈ [LockInput.lockCloseOk, LockInput.doorClosed]) ∨
      LockInput.resetOk ∈ [LockInput.lockCloseOk, LockInput.doorClosed]) :=
  ⟨by decide, C1_locked_requires_close_and_door _ (by decide)⟩

/-- Claim C2: in every protocol state with a pending command, a second
execute call returns Busy and sends nothing on the transport. -/
theorem C2_execute_busy_when_pending (st : ProtoState) (c : Command) (now : Nat)
    (incoming : List TimedFrame) (h : st.pending = true) :
    (execute st c now incoming).result = ExecResult.Busy ∧
    (execute st c now incoming).sent = [] := by
  simp [execute, h]

/-- Witness for C2: a concrete execute call in the pending state observes
Busy and sends nothing. -/
theorem C2_execute_busy_when_pending_witness :
    (execute { pending := true } Command.StatusQuery 0 []).result = ExecResult.Busy ∧
    (execute { pending := true } Command.StatusQuery 0 []).sent = [] :=
  C2_execute_busy_when_pending { pending := true } Command.StatusQuery 0 [] rfl

/-- Claim C3: every well-formed wire line matching a known tag round-trips
through serialization and parsing to the correct Frame variant (commands
with an AT+ or AT- tag, EVENT:, STATUS:, ERROR: lines, and the bare literal
OK), and every other line — the empty line included — parses to the
Malformed variant. -/
theorem C3_frame_roundtrip_and_malformed :
    (∀ raw : List Char, trimRight raw = raw →
      (startsWithL AT_SET_TAG raw || startsWithL AT_CLEAR_TAG raw) = true →
      parseLine (serializeLine (Frame.Command raw)) = Frame.Command raw) ∧
    (∀ p : List Char,
      trimRight (RESPONSE_EVENT.data ++ p) = RESPONSE_EVENT.data ++ p →
      parseLine (serializeLine (Frame.Event p)) = Frame.Event p) ∧
    (∀ p : List Char,
      trimRight (RESPONSE_STATUS.data ++ p) = RESPONSE_STATUS.data ++ p →
      parseLine (serializeLine (Frame.Status p)) = Frame.Status p) ∧
    (∀ p : List Char,
      trimRight (RESPONSE_ERROR.data ++ p) = RESPONSE_ERROR.data ++ p →
      parseLine (serializeLine (Frame.Error p)) = Frame.Error p) ∧
    parseLine (serializeLine Frame.Ok) = Frame.Ok ∧
    parseLine [] = Frame.Malformed ∧
    (∀ l : List Char, knownLine (trimRight l) = false →
      parseLine l = Frame.Malformed) := by
  refine ⟨?_, ?_, ?_, ?_, by decide, by decide, ?_⟩
  · intro raw h hc; exact parse_command_line raw h hc
  · intro p h; exact parse_event_line p h
  · intro p h; exact parse_status_line p h
  · intro p h; exact parse_error_line p h
  · intro l h; exact parse_unknown_line l h

/-- Witness for C3: concrete round-trips for each variant and a concrete
unknown line parsing to Malformed. -/
theorem C3_frame_roundtrip_witness :
    parseLine (serializeLine (Frame.Command (("AT+LOCK 1").data))) =
      Frame.Command (("AT+LOCK 1").data) ∧
    parseLine (serializeLine (Frame.Event (("DOOR_CLOSED 1").data))) =
      Frame.Event (("DOOR_CLOSED 1").data) ∧
    parseLine (serializeLine (Frame.Status (("0101").data))) =
      Frame.Status (("0101").data) ∧
    parseLine (serializeLine (Frame.Error (("42").data))) =
      Frame.Error (("42").data) ∧
    parseLine (("garbage line").data) = Frame.Malformed :=
  ⟨C3_frame_roundtrip_and_malformed.1 _ (by decide) (by decide),
   C3_frame_roundtrip_and_malformed.2.1 _ (by decide),
   C3_frame_roundtrip_and_malformed.2.2.1 _ (by decide),
   C3_frame_roundtrip_and_malformed.2.2.2.1 _ (by decide),
   C3_frame_roundtrip_and_malformed.2.2.2.2.2.2 _ (by decide)⟩

/-- Claim C4: Fault is sticky — in state Fault every input other than a
successful explicit reset leaves the whole lock state unchanged, and the
successful reset moves the lock to Locked. -/
theorem C4_fault_sticky :
    ∀ (s : LockState) (i : LockInput), s.phase = LockPhase.Fault →
      (i ≠ LockInput.resetOk → lockStep s i = s) ∧
      (lockStep s LockInput.resetOk).phase = LockPhase.Locked := by
  decide

/-- Witness for C4: a concrete Fault state ignores a DoorClosed event and
leaves Fault on a successful reset. -/
theorem C4_fault_sticky_witness :
    lockStep { phase := LockPhase.Fault, commandedClosed := false, sensedClosed := true }
        LockInput.doorClosed =
      { phase := LockPhase.Fault, commandedClosed := false, sensedClosed := true } ∧
    (lockStep { phase := LockPhase.Fault, commandedClosed := false, sensedClosed := true }
        LockInput.resetOk).phase = LockPhase.Locked :=
  ⟨(C4_fault_sticky _ LockInput.doorClosed rfl).1 (by decide),
   (C4_fault_sticky _ LockInput.doorClosed rfl).2⟩

/-- Claim C5: the retry budget is the fixed count 3; when the initial
attempt and every retry fail (Busy or NoResponse), the Session aborts with
ControllerUnreachable; a terminal first attempt is not retried. -/
theorem C5_retry_exhaustion_aborts :
    MAX_COMMAND_RETRIES = 3 ∧
    (∀ (next : ExecResult → SessionState) (attempt : Nat → ExecResult),
      (∀ i, i < 1 + MAX_COMMAND_RETRIES → isFailedExec (attempt i) = true) →
      sessionAfterExec next attempt =
        SessionState.Aborted AbortReason.ControllerUnreachable) ∧
    (∀ (next : ExecResult → SessionState) (attempt : Nat → ExecResult),
      isFailedExec (attempt 0) = false →
      sessionAfterExec next attempt = next (attempt 0)) := by
  refine ⟨rfl, ?_, ?_⟩
  · intro next attempt h
    have he : executeWithRetry attempt = none := by
      apply firstTerminal_none_of_fail
      intro j hj
      simpa using h j hj
    simp [sessionAfterExec, he]
  · intro next attempt h
    have he : executeWithRetry attempt = some (attempt 0) := by
      show firstTerminal attempt 0 (3 + 1) = some (attempt 0)
      rw [firstTerminal_succ, h]
      simp
    simp [sessionAfterExec, he]

/-- Witness for C5: a command whose every attempt times out (NoResponse)
aborts the Session with ControllerUnreachable. -/
theorem C5_retry_exhaustion_aborts_witness :
    sessionAfterExec (fun _ => SessionState.Completed)
        (fun _ => ExecResult.NoResponse) =
      SessionState.Aborted AbortReason.ControllerUnreachable :=
  C5_retry_exhaustion_aborts.2.1 _ _ (fun _ _ => rfl)

/-- Claim C6: DoorClosed is idempotent on a Locked lock — any number of
further DoorClosed events leaves the whole lock state (state tag, commanded
state and sensed state) unchanged. -/
theorem C6_doorClosed_idempotent (s : LockState) (n : Nat)
    (h : s.phase = LockPhase.Locked) :
    lockRun s (List.replicate n LockInput.doorClosed) = s := by
  induction n with
  | zero => rfl
  | succ m ih =>
    simp only [List.replicate_succ, lockRun]
    rw [lockStep_locked_doorClosed s h]
    exact ih

/-- Witness for C6: three duplicate DoorClosed events leave a concrete
Locked state unchanged. -/
theorem C6_doorClosed_idempotent_witness :
    lockRun { phase := LockPhase.Locked, commandedClosed := true, sensedClosed := true }
        (List.replicate 3 LockInput.doorClosed) =
      { phase := LockPhase.Locked, commandedClosed := true, sensedClosed := true } :=
  C6_doorClosed_idempotent _ 3 rfl

/-- Claim C7: the response window of execute is the fixed constant
ARDUINO_RESPONSE_TIMEOUT = 5000 ms, and when no Response frame arrives
within now + ARDUINO_RESPONSE_TIMEOUT, execute returns NoResponse. -/
theorem C7_response_timeout :
    ARDUINO_RESPONSE_TIMEOUT = 5000 ∧
    ∀ (st : ProtoState) (c : Command) (now : Nat) (incoming : List TimedFrame),
      st.pending = false →
      (∀ tf ∈ incoming, isResponseFrame tf.frame = true →
        now + ARDUINO_RESPONSE_TIMEOUT < tf.arrival) →
      (execute st c now incoming).result = ExecResult.NoResponse := by
  refine ⟨rfl, ?_⟩
  intro st c now incoming hp h
  have hnone := pollResponse_none_of_late (now + ARDUINO_RESPONSE_TIMEOUT) incoming h
  simp [execute, hp, hnone]

/-- Witness for C7: with the only OK frame arriving at 6000 ms, an execute
issued at 0 ms returns NoResponse. -/
theorem C7_response_timeout_witness :
    (execute { pending := false } Command.StatusQuery 0
      [{ arrival := 6000, frame := Frame.Ok }]).result = ExecResult.NoResponse :=
  C7_response_timeout.2 { pending := false } Command.StatusQuery 0
    [{ arrival := 6000, frame := Frame.Ok }] rfl (by decide)

/-- Claim C8: the wire serialization of each Command equals the fixed
string of the protocol constants — AT+LOCK, AT-LOCK, AT+BUZZ, AT+STATUS,
AT+SENSOR — each optionally suffixed with a target identifier. -/
theorem C8_wire_serialization :
    (∀ a, wireForm (Command.LockOpen a) = ("AT+LOCK") ++ wireSuffix a) ∧
    (∀ a, wireForm (Command.LockClose a) = ("AT-LOCK") ++ wireSuffix a) ∧
    (∀ a, wireForm (Command.Buzz a) = ("AT+BUZZ") ++ wireSuffix a) ∧
    wireForm Command.StatusQuery = ("AT+STATUS") ∧
    (∀ a, wireForm (Command.SensorRead a) = ("AT+SENSOR") ++ wireSuffix a) ∧
    wireSuffix none = ("") :=
  ⟨fun _ => rfl, fun _ => rfl, fun _ => rfl, rfl, fun _ => rfl, rfl⟩

/-- Claim C9: the five cloud-mirror path accessors of
ParcelBoxFirebaseConfig return exactly the fixed path layout. -/
theorem C9_cloud_paths :
    ParcelBoxFirebaseConfig.getParcelsDatabasePath = ("/parcels") ∧
    ParcelBoxFirebaseConfig.getDeviceStatusPath = ("/device_status") ∧
    ParcelBoxFirebaseConfig.getLocksStatusPath = ("/locks_status") ∧
    ParcelBoxFirebaseConfig.getHistoryPath = ("/history") ∧
    ParcelBoxFirebaseConfig.getConfigPath = ("/config") :=
  ⟨rfl, rfl, rfl, rfl, rfl⟩

/-- Claim C10: RECONNECT_INTERVAL is 5000 ms; reconnect issues the
disconnect-keeping-the-radio and reconnect calls, recording the attempt
time, exactly when disconnected and at least RECONNECT_INTERVAL has elapsed
since lastReconnectAttempt; when connected, or when less than the interval
has elapsed, it leaves the state unchanged and issues no call — so a second
attempt never follows an attempt by less than 5000 ms. -/
theorem C10_reconnect_throttled :
    RECONNECT_INTERVAL = 5000 ∧
    (∀ (w : WiFiManagerCustom) (cur : Nat), w.connected = false →
      RECONNECT_INTERVAL ≤ elapsedSince w.lastReconnectAttempt cur →
      WiFiManagerCustom.reconnect w cur =
        ({ w with lastReconnectAttempt := cur % UNSIGNED_LONG_MOD },
          [WiFiCall.disconnectKeepRadio, WiFiCall.reconnectWithSaved])) ∧
    (∀ (w : WiFiManagerCustom) (cur : Nat), w.connected = true →
      WiFiManagerCustom.reconnect w cur = (w, [])) ∧
    (∀ (w : WiFiManagerCustom) (cur : Nat),
      elapsedSince w.lastReconnectAttempt cur < RECONNECT_INTERVAL →
      WiFiManagerCustom.reconnect w cur = (w, [])) ∧
    (∀ (w : WiFiManagerCustom) (cur cur2 : Nat),
      (WiFiManagerCustom.reconnect w cur).2 ≠ [] →
      elapsedSince (WiFiManagerCustom.reconnect w cur).1.lastReconnectAttempt cur2 <
        RECONNECT_INTERVAL →
      (WiFiManagerCustom.reconnect (WiFiManagerCustom.reconnect w cur).1 cur2).2 = []) := by
  refine ⟨rfl, ?_, ?_, ?_, ?_⟩
  · intro w cur hc he
    simp [WiFiManagerCustom.reconnect, hc, he]
  · intro w cur hc
    simp [WiFiManagerCustom.reconnect, hc]
  · intro w cur he
    exact reconnect_skip_of_recent w cur he
  · intro w cur cur2 _ he2
    rw [reconnect_skip_of_recent _ cur2 he2]

/-- Witness for C10: at 5000 ms since a last attempt at 0 a disconnected
manager fires the two WiFi calls and records the time; a connected manager
and a manager whose last attempt was 100 ms ago do nothing. -/
theorem C10_reconnect_throttled_witness :
    WiFiManagerCustom.reconnect { connected := false, lastReconnectAttempt := 0 } 5000 =
      ({ connected := false, lastReconnectAttempt := 5000 },
        [WiFiCall.disconnectKeepRadio, WiFiCall.reconnectWithSaved]) ∧
    WiFiManagerCustom.reconnect { connected := true, lastReconnectAttempt := 0 } 5000 =
      ({ connected := true, lastReconnectAttempt := 0 }, []) ∧
    WiFiManagerCustom.reconnect { connected := false, lastReconnectAttempt := 5000 } 5100 =
      ({ connected := false, lastReconnectAttempt := 5000 }, []) :=
  ⟨C10_reconnect_throttled.2.1 _ _ rfl (by decide),
   C10_reconnect_throttled.2.2.1 _ _ rfl,
   C10_reconnect_throttled.2.2.2.1 _ _ (by decide)⟩

end ParcelBox
